import Mathlib

/-
Verification of the layered configuration registry implemented in
`modules/ConfigManager.js`.

The JavaScript code is shallowly embedded:
* JS values appearing in the configuration are modelled by `JSValue`
  (JS numbers as exact rationals, JS arrays of strings as `strList`,
  the nested `experimentalFeatures` object of booleans as `boolMap`).
* JS objects holding configuration snapshots are modelled by association
  lists (`Obj`), with first-match lookup.  The object spread
  `{...a, ...b}` is modelled by `objSpread a b` (keys of `b` win), and
  the `delete` statement by `objDelete`.
* `process.env` is modelled by `EnvMap : String → Option String`
  (`none` = variable unset).
* Methods that throw are modelled with `Except`; fire-and-forget file
  persistence is modelled by exposing the snapshot that would be
  serialized (`savedConfigSnapshot`), not the I/O itself.
-/

namespace ConfigManager

/-- Model of the JavaScript values stored in the configuration object. -/
inductive JSValue where
  | str (s : String)
  | num (q : ℚ)
  | bool (b : Bool)
  | strList (xs : List String)
  | boolMap (fields : List (String × Bool))
  | undefined
  | null

deriving instance DecidableEq, Repr for JSValue

/-- A JS object as an association list; lookup returns the first match. -/
abbrev Obj := List (String × JSValue)

/-- Property lookup: `some v` when the key is present (JS own property). -/
def objLookup : Obj → String → Option JSValue
  | [], _ => none
  | (k, v) :: rest, key => if k == key then some v else objLookup rest key

/-- Whether the key is an own property of the object. -/
def objHasKey (o : Obj) (k : String) : Bool :=
  (objLookup o k).isSome

/-- `o[key]` in JS: an absent property reads as `undefined`. -/
def objGetProp (o : Obj) (k : String) : JSValue :=
  (objLookup o k).getD JSValue.undefined

/-- Object spread `{...a, ...b}`: keys of `b` win over keys of `a`. -/
def objSpread (a b : Obj) : Obj :=
  b ++ a.filter (fun p => !(objHasKey b p.1))

/-- `delete o[k]` on a copy of the object: removes every binding of `k`. -/
def objDelete : Obj → String → Obj
  | [], _ => []
  | (k₁, v) :: rest, k =>
      if k₁ == k then objDelete rest k else (k₁, v) :: objDelete rest k

/-- `Object.keys(o)` in declaration order. -/
def objKeys (o : Obj) : List String :=
  o.map (·.1)

/-- ASCII model of `String.prototype.toLowerCase()`. -/
def jsToLower (s : String) : String :=
  String.mk (s.data.map Char.toLower)

/-- Numeric value of a list of decimal digit characters. -/
def digitsVal (ds : List Char) : Nat :=
  ds.foldl (fun a c => a * 10 + (c.toNat - '0'.toNat)) 0

/-- Model of JS `parseInt(s)` (radix 10): skips leading whitespace, optional
sign, then reads a maximal digit prefix; `none` models `NaN`. -/
def jsParseInt (s : String) : Option Int :=
  let cs := s.data.dropWhile Char.isWhitespace
  let sgn : Int := match cs with
    | '-' :: _ => -1
    | _ => 1
  let cs1 := match cs with
    | '-' :: r => r
    | '+' :: r => r
    | _ => cs
  let ds := cs1.takeWhile Char.isDigit
  if ds.isEmpty then none else some (sgn * (digitsVal ds : Int))

/-- Model of JS `parseFloat(s)`: skips leading whitespace, optional sign,
then reads `digits[.digits]`; trailing junk is ignored and `none` models
`NaN`.  (Exponent notation, `Infinity` and hex forms are not modelled;
the configuration inputs never use them.) -/
def jsParseFloat (s : String) : Option ℚ :=
  let cs := s.data.dropWhile Char.isWhitespace
  let sgn : Int := match cs with
    | '-' :: _ => -1
    | _ => 1
  let cs1 := match cs with
    | '-' :: r => r
    | '+' :: r => r
    | _ => cs
  let ip := cs1.takeWhile Char.isDigit
  let rest := cs1.dropWhile Char.isDigit
  let fp := match rest with
    | '.' :: r => r.takeWhile Char.isDigit
    | _ => []
  if ip.isEmpty && fp.isEmpty then none
  else some (mkRat (sgn * ((digitsVal ip * 10 ^ fp.length + digitsVal fp : Nat) : Int))
    (10 ^ fp.length))

/-- JS truthiness of a configuration value. -/
def jsTruthy : JSValue → Bool
  | JSValue.undefined => false
  | JSValue.null => false
  | JSValue.bool b => b
  | JSValue.str s => s != ""
  | JSValue.num q => q != 0
  | JSValue.strList _ => true
  | JSValue.boolMap _ => true

/-- JS `a || b` restricted to the values it is applied to here. -/
def jsOr (a b : JSValue) : JSValue :=
  if jsTruthy a then a else b

/-- `typeof` on the modelled values (`typeof null` is `"object"` in JS). -/
def jsTypeof : JSValue → String
  | JSValue.str _ => "string"
  | JSValue.num _ => "number"
  | JSValue.bool _ => "boolean"
  | JSValue.strList _ => "object"
  | JSValue.boolMap _ => "object"
  | JSValue.undefined => "undefined"
  | JSValue.null => "object"

/-- The environment snapshot: `none` models an unset variable. -/
abbrev EnvMap := String → Option String

/-- The local helper `getEnv(key, defaultValue, type)` declared inside
`getDefaultConfig`: returns the default when the variable is unset or the
empty string, otherwise coerces according to `type` (`"number"` via
`parseFloat`, `"boolean"` via a case-insensitive comparison with
`"true"`, `"int"` via `parseInt`, anything else verbatim).  Note that it
does NOT trim the raw string (the module-level `getEnv` that trims is
shadowed by this local one). -/
def getEnvTyped (env : EnvMap) (key : String) (dflt : JSValue) (ty : String) : JSValue :=
  match env key with
  | none => dflt
  | some v =>
      if v == "" then dflt
      else if ty == "number" then
        match jsParseFloat v with
        | none => dflt
        | some q => JSValue.num q
      else if ty == "boolean" then JSValue.bool (jsToLower v == "true")
      else if ty == "int" then
        match jsParseInt v with
        | none => dflt
        | some n => JSValue.num (n : ℚ)
      else JSValue.str v

/-- Boolean field of `experimentalFeatures`: same coercion as the
`"boolean"` case of the local `getEnv`. -/
def envBool (env : EnvMap) (key : String) (dflt : Bool) : Bool :=
  match env key with
  | none => dflt
  | some v => if v == "" then dflt else jsToLower v == "true"

/-- `getEnv(KEY) ? getEnv(KEY).split(",") : dflt` used for
`allowedCommands` and `adminUsers`. -/
def envStrList (env : EnvMap) (key : String) (dflt : List String) : JSValue :=
  if jsTruthy (getEnvTyped env key JSValue.undefined "string") then
    match getEnvTyped env key JSValue.undefined "string" with
    | JSValue.str s => JSValue.strList (s.splitOn ",")
    | other => other
  else JSValue.strList dflt

/-- Translation of `getDefaultConfig()`, as a pure function of the
environment snapshot. -/
def getDefaultConfig (env : EnvMap) : Obj :=
  [ ("host", getEnvTyped env "MINECRAFT_HOST" (JSValue.str "localhost") "string"),
    ("port", getEnvTyped env "MINECRAFT_PORT" (JSValue.num 19132) "int"),
    ("username", getEnvTyped env "BOT_USERNAME" (JSValue.str "DragonSlayerBot") "string"),
    ("version", getEnvTyped env "MINECRAFT_VERSION" (JSValue.str "1.20.0") "string"),
    ("skipPing", JSValue.bool true),
    ("offlineMode", JSValue.bool false),
    ("geminiApiKey", jsOr (jsOr (getEnvTyped env "GEMINI_API_KEY" JSValue.undefined "string")
        (getEnvTyped env "GEMINI_KEY" JSValue.undefined "string"))
        (getEnvTyped env "API_KEY" JSValue.undefined "string")),
    ("geminiModel", getEnvTyped env "GEMINI_MODEL" (JSValue.str "gemini-1.5-flash") "string"),
    ("maxTokens", getEnvTyped env "MAX_TOKENS" (JSValue.num 1000) "int"),
    ("aiTemperature", getEnvTyped env "AI_TEMPERATURE" (JSValue.num (mkRat 7 10)) "number"),
    ("aiTopP", getEnvTyped env "AI_TOP_P" (JSValue.num (mkRat 9 10)) "number"),
    ("aiTopK", getEnvTyped env "AI_TOP_K" (JSValue.num 40) "int"),
    ("chatCooldown", getEnvTyped env "CHAT_COOLDOWN" (JSValue.num 2000) "int"),
    ("autoResponse", getEnvTyped env "AUTO_RESPONSE" (JSValue.bool true) "boolean"),
    ("learningEnabled", getEnvTyped env "LEARNING_ENABLED" (JSValue.bool true) "boolean"),
    ("aggressiveMode", getEnvTyped env "AGGRESSIVE_MODE" (JSValue.bool false) "boolean"),
    ("helpfulMode", getEnvTyped env "HELPFUL_MODE" (JSValue.bool true) "boolean"),
    ("missionTimeout", getEnvTyped env "MISSION_TIMEOUT" (JSValue.num 1800000) "int"),
    ("autoStartMission", getEnvTyped env "AUTO_START_MISSION" (JSValue.bool false) "boolean"),
    ("teamMode", getEnvTyped env "TEAM_MODE" (JSValue.bool true) "boolean"),
    ("maxTeamSize", getEnvTyped env "MAX_TEAM_SIZE" (JSValue.num 4) "int"),
    ("combatDistance", getEnvTyped env "COMBAT_DISTANCE" (JSValue.num 3) "number"),
    ("fleeThreshold", getEnvTyped env "FLEE_THRESHOLD" (JSValue.num (mkRat 3 10)) "number"),
    ("combatStrategy", getEnvTyped env "COMBAT_STRATEGY" (JSValue.str "balanced") "string"),
    ("pathfindingTimeout", getEnvTyped env "PATHFINDING_TIMEOUT" (JSValue.num 10000) "int"),
    ("movementSpeed", getEnvTyped env "MOVEMENT_SPEED" (JSValue.num (mkRat 4317 1000)) "number"),
    ("jumpHeight", getEnvTyped env "JUMP_HEIGHT" (JSValue.num (mkRat 125 100)) "number"),
    ("autoManageInventory", getEnvTyped env "AUTO_MANAGE_INVENTORY" (JSValue.bool true) "boolean"),
    ("keepEssentialItems", getEnvTyped env "KEEP_ESSENTIAL_ITEMS" (JSValue.bool true) "boolean"),
    ("craftingEnabled", getEnvTyped env "CRAFTING_ENABLED" (JSValue.bool true) "boolean"),
    ("debugMode", getEnvTyped env "DEBUG_MODE" (JSValue.bool false) "boolean"),
    ("logLevel", getEnvTyped env "LOG_LEVEL" (JSValue.str "info") "string"),
    ("logPackets", getEnvTyped env "LOG_PACKETS" (JSValue.bool false) "boolean"),
    ("simulationMode", getEnvTyped env "SIMULATION_MODE" (JSValue.bool false) "boolean"),
    ("tickRate", getEnvTyped env "TICK_RATE" (JSValue.num 20) "int"),
    ("maxMemoryUsage", getEnvTyped env "MAX_MEMORY_MB" (JSValue.num 512) "int"),
    ("gcInterval", getEnvTyped env "GC_INTERVAL" (JSValue.num 60000) "int"),
    ("learningDataPath", getEnvTyped env "LEARNING_DATA_PATH" (JSValue.str "./data/learning") "string"),
    ("maxLearningEntries", getEnvTyped env "MAX_LEARNING_ENTRIES" (JSValue.num 10000) "int"),
    ("learningDecayRate", getEnvTyped env "LEARNING_DECAY_RATE" (JSValue.num (mkRat 1 10)) "number"),
    ("allowedCommands", envStrList env "ALLOWED_COMMANDS" ["help", "status", "mission"]),
    ("adminUsers", envStrList env "ADMIN_USERS" []),
    ("rateLimitEnabled", getEnvTyped env "RATE_LIMIT_ENABLED" (JSValue.bool true) "boolean"),
    ("maxRequestsPerMinute", getEnvTyped env "MAX_REQUESTS_PER_MINUTE" (JSValue.num 30) "int"),
    ("multiServerMode", getEnvTyped env "MULTI_SERVER_MODE" (JSValue.bool false) "boolean"),
    ("backupEnabled", getEnvTyped env "BACKUP_ENABLED" (JSValue.bool true) "boolean"),
    ("metricsEnabled", getEnvTyped env "METRICS_ENABLED" (JSValue.bool false) "boolean"),
    ("webhookUrl", getEnvTyped env "WEBHOOK_URL" JSValue.undefined "string"),
    ("experimentalFeatures", JSValue.boolMap [
        ("advancedAI", envBool env "EXPERIMENTAL_ADVANCED_AI" false),
        ("predictiveNavigation", envBool env "EXPERIMENTAL_PREDICTIVE_NAV" false),
        ("dynamicDifficulty", envBool env "EXPERIMENTAL_DYNAMIC_DIFFICULTY" false),
        ("socialLearning", envBool env "EXPERIMENTAL_SOCIAL_LEARNING" false)]) ]

/-- Translation of `getEnvironmentOverrides()`: every environment name
with the `BOT_` prefix becomes a raw string-valued override under the
normalized key (prefix stripped, lower-cased, underscores removed). -/
def getEnvironmentOverrides (envKeys : List String) (env : EnvMap) : Obj :=
  (envKeys.filter (fun k => k.startsWith "BOT_")).map
    (fun k => (String.mk (((jsToLower (k.drop 4)).data.filter (fun c => c ≠ '_'))),
      match env k with
      | some v => JSValue.str v
      | none => JSValue.undefined))

/-- Decimal digits of `r / d` (`r < d`) by long division, fuel-bounded;
used to render numeric bounds inside violation messages the way JS
template strings render numbers. -/
def fracDigits : Nat → Nat → Nat → String
  | 0, _, _ => ""
  | Nat.succ fuel, r, d =>
      if r == 0 then ""
      else toString (r * 10 / d) ++ fracDigits fuel (r * 10 % d) d

/-- Rendering of a JS number inside a template string (covers the
integral and finite-decimal values used by the validation rules). -/
def jsNumToString (q : ℚ) : String :=
  let n := q.num.natAbs
  let d := q.den
  (if q.num < 0 then "-" else "") ++ toString (n / d) ++
    (if n % d == 0 then "" else "." ++ fracDigits 20 (n % d) d)

/-- A declarative validation rule, as in `getValidationRules()`. -/
structure Rule where
  type : String
  required : Bool := false
  min : Option ℚ := none
  max : Option ℚ := none
  minLength : Option Nat := none
  maxLength : Option Nat := none
  enum : Option (List String) := none

deriving instance DecidableEq, Repr for Rule

/-- Translation of `getValidationRules()`, in source order. -/
def getValidationRules : List (String × Rule) :=
  [ ("host", { type := "string", required := true, minLength := some 1 }),
    ("port", { type := "number", min := some 1, max := some 65535 }),
    ("username", { type := "string", required := true, minLength := some 1, maxLength := some 16 }),
    ("geminiApiKey", { type := "string", required := true, minLength := some 1 }),
    ("maxTokens", { type := "number", min := some 1, max := some 8192 }),
    ("aiTemperature", { type := "number", min := some 0, max := some 2 }),
    ("aiTopP", { type := "number", min := some 0, max := some 1 }),
    ("aiTopK", { type := "number", min := some 1, max := some 100 }),
    ("chatCooldown", { type := "number", min := some 0, max := some 10000 }),
    ("missionTimeout", { type := "number", min := some 60000, max := some 7200000 }),
    ("maxTeamSize", { type := "number", min := some 1, max := some 20 }),
    ("combatDistance", { type := "number", min := some 1, max := some 10 }),
    ("fleeThreshold", { type := "number", min := some (mkRat 1 10), max := some (mkRat 9 10) }),
    ("pathfindingTimeout", { type := "number", min := some 1000, max := some 60000 }),
    ("tickRate", { type := "number", min := some 1, max := some 100 }),
    ("maxMemoryUsage", { type := "number", min := some 128, max := some 4096 }),
    ("maxLearningEntries", { type := "number", min := some 100, max := some 100000 }),
    ("maxRequestsPerMinute", { type := "number", min := some 1, max := some 1000 }),
    ("logLevel", { type := "string", enum := some ["error", "warn", "info", "debug"] }),
    ("combatStrategy", { type := "string", enum := some ["aggressive", "defensive", "balanced"] }) ]

/-- `rule.enum.includes(value)`: only a string can be a member. -/
def enumIncludes (es : List String) : JSValue → Bool
  | JSValue.str s => es.contains s
  | _ => false

/-- The body of the `forEach` in `validateConfig()` for one `[key, rule]`
entry: a required violation short-circuits the remaining checks for that
key (the early `return`), an absent or null value is otherwise skipped,
and then the type, range, length and enum checks each contribute
independently. -/
def validateRule (config : Obj) (key : String) (rule : Rule) : List String :=
  let value := objGetProp config key
  if rule.required &&
      (value == JSValue.undefined || value == JSValue.null || value == JSValue.str "") then
    [key ++ " is required"]
  else if value == JSValue.undefined || value == JSValue.null then []
  else
    (if rule.type == "string" && jsTypeof value != "string" then
        [key ++ " must be a string"]
      else if rule.type == "number" && jsTypeof value != "number" then
        [key ++ " must be a number"]
      else if rule.type == "boolean" && jsTypeof value != "boolean" then
        [key ++ " must be a boolean"]
      else [])
    ++ (if rule.type == "number" then
          match value with
          | JSValue.num q =>
              (match rule.min with
               | some m => if q < m then [key ++ " must be at least " ++ jsNumToString m] else []
               | none => [])
              ++ (match rule.max with
                  | some m => if q > m then [key ++ " must be at most " ++ jsNumToString m] else []
                  | none => [])
          | _ => []
        else [])
    ++ (if rule.type == "string" then
          match value with
          | JSValue.str s =>
              (match rule.minLength with
               | some m =>
                   if s.length < m then
                     [key ++ " must be at least " ++ toString m ++ " characters"]
                   else []
               | none => [])
              ++ (match rule.maxLength with
                  | some m =>
                      if s.length > m then
                        [key ++ " must be at most " ++ toString m ++ " characters"]
                      else []
                  | none => [])
          | _ => []
        else [])
    ++ (match rule.enum with
        | some es =>
            if !(enumIncludes es value) then
              [key ++ " must be one of: " ++ String.intercalate ", " es]
            else []
        | none => [])

/-- Translation of `validateConfig()`: the aggregated violation list over
every declared rule, in declaration order (the method throws exactly
when this list is nonempty). -/
def validateConfig (config : Obj) : List String :=
  (getValidationRules.map (fun p => validateRule config p.1 p.2)).flatten

/-- The merge performed by `initializeConfig`:
`{...defaults, ...file, ...environment, ...initialOptions}`
(this value is assigned to `this.config`). -/
def initializeConfig (defaultConfig fileConfig envOverrides initialOptions : Obj) : Obj :=
  objSpread (objSpread (objSpread defaultConfig fileConfig) envOverrides) initialOptions

/-- `initializeConfig` including the subsequent `validateConfig()` call:
the second component is `Except.ok` when the merged snapshot validates
and otherwise the thrown aggregated error. -/
def initializeConfigRun (defaultConfig fileConfig envOverrides initialOptions : Obj) :
    Obj × Except String Unit :=
  (initializeConfig defaultConfig fileConfig envOverrides initialOptions,
    if (validateConfig (initializeConfig defaultConfig fileConfig envOverrides initialOptions)).isEmpty
    then Except.ok ()
    else Except.error ("Configuration validation failed: " ++ String.intercalate "; "
      (validateConfig (initializeConfig defaultConfig fileConfig envOverrides initialOptions))))

/-- Result of a mutating call: the active snapshot after the call, and
either the thrown error or the `(key, newValue, oldValue)` notifications
issued to `notifyWatchers`. -/
structure MutResult where
  config : Obj
  outcome : Except String (List (String × JSValue × JSValue))

deriving instance Repr for MutResult

/-- Translation of `updateConfig(updates)`: builds
`tempConfig = {...this.config, ...updates}`, assigns it, validates, and
on failure rolls back to the old snapshot and rethrows; on success it
notifies watchers for every key of `updates` with
`(updates[key], oldConfig[key])`. -/
def updateConfigRun (config updates : Obj) : MutResult :=
  if (validateConfig (objSpread config updates)).isEmpty then
    { config := objSpread config updates,
      outcome := Except.ok ((objKeys updates).map
        (fun k => (k, objGetProp updates k, objGetProp config k))) }
  else
    { config := config,
      outcome := Except.error ("Configuration validation failed: " ++ String.intercalate "; "
        (validateConfig (objSpread config updates))) }

/-- `getPublicConfig()`: the snapshot with the three sensitive keys
deleted. -/
def getPublicConfig (config : Obj) : Obj :=
  objDelete (objDelete (objDelete config "geminiApiKey") "webhookUrl") "adminUsers"

/-- The snapshot that `saveConfigToFile()` serializes to disk: only
`geminiApiKey` is deleted from the copy before writing. -/
def savedConfigSnapshot (config : Obj) : Obj :=
  objDelete config "geminiApiKey"

/-- Result of `reset()`: the new snapshot and the notifications it
issues. -/
structure ResetResult where
  config : Obj
  notifications : List (String × JSValue × JSValue)

deriving instance Repr for ResetResult

/-- Translation of `reset()`: replaces the snapshot with a shallow copy
of `defaultConfig` and notifies watchers only for keys of the old
snapshot whose value differs (`!==`) from the new one.  Because the copy
is shallow, each value of the new snapshot is reference-identical to the
corresponding default, so structural equality of `JSValue` faithfully
models the `!==` comparison after a reset. -/
def resetRun (config defaultConfig : Obj) : ResetResult :=
  { config := defaultConfig,
    notifications := (objKeys config).filterMap (fun key =>
      if objGetProp config key != objGetProp defaultConfig key then
        some (key, objGetProp defaultConfig key, objGetProp config key)
      else none) }

/-- The artifact written by `backup()`: `getPublicConfig()` at the time
of the call (the JSON round trip through the backup file preserves it,
every public value being defined). -/
def backupArtifact (config : Obj) : Obj :=
  getPublicConfig config

/-- Translation of `restore(backupPath)`: the parsed artifact is fed
through `updateConfig`. -/
def restoreRun (config artifact : Obj) : MutResult :=
  updateConfigRun config artifact

/-- A registered watcher callback, identified by `id`; `throws` says
whether invoking it raises an error. -/
structure Callback where
  id : Nat
  throws : Bool

deriving instance DecidableEq, Repr for Callback

/-- Invoking a callback either returns or raises. -/
def runCallback (cb : Callback) : Except String Unit :=
  if cb.throws then Except.error "watcher callback error" else Except.ok ()

/-- Record of one callback invocation (the arguments are
`(newValue, oldValue, key)`); `threw` records that the error it raised
was caught. -/
structure Invocation where
  id : Nat
  newValue : JSValue
  oldValue : JSValue
  key : String
  threw : Bool

deriving instance DecidableEq, Repr for Invocation

/-- Translation of `notifyWatchers(key, newValue, oldValue)` for the
callbacks registered on `key`: every callback is invoked in registration
order; an error raised by one is caught (and logged), so it neither
stops the remaining callbacks nor propagates to the caller — the
function has no error outcome. -/
def notifyWatchers (cbs : List Callback) (newValue oldValue : JSValue) (key : String) :
    List Invocation :=
  match cbs with
  | [] => []
  | cb :: rest =>
      match runCallback cb with
      | Except.ok _ =>
          { id := cb.id, newValue := newValue, oldValue := oldValue, key := key,
            threw := false } :: notifyWatchers rest newValue oldValue key
      | Except.error _ =>
          { id := cb.id, newValue := newValue, oldValue := oldValue, key := key,
            threw := true } :: notifyWatchers rest newValue oldValue key

/-- `this.watchers.get(key)` over the registration map. -/
def watchersFor (ws : List (String × List Callback)) (key : String) : List Callback :=
  match ws with
  | [] => []
  | (k, cbs) :: rest => if k == key then cbs else watchersFor rest key

/-- Result of a `set`/`updateConfig` call observed together with the
watcher invocations it triggers. -/
structure RunResult where
  config : Obj
  succeeded : Bool
  invocations : List Invocation

deriving instance Repr for RunResult

/-- `updateConfig` followed by the watcher notification loop (`set(k,v)`
is `updateConfig({[k]: v})`). -/
def setWithWatchers (config : Obj) (ws : List (String × List Callback)) (updates : Obj) :
    RunResult :=
  let r := updateConfigRun config updates
  match r.outcome with
  | Except.error _ => { config := r.config, succeeded := false, invocations := [] }
  | Except.ok notifs =>
      { config := r.config, succeeded := true,
        invocations := (notifs.map
          (fun n => notifyWatchers (watchersFor ws n.1) n.2.1 n.2.2 n.1)).flatten }

/-- The empty environment (no variables set). -/
def env0 : EnvMap := fun _ => none

/-- Defaults computed from the empty environment. -/
def defaults0 : Obj := getDefaultConfig env0

/-- A valid active snapshot: the empty-environment defaults with the
required `geminiApiKey` supplied explicitly. -/
def c0 : Obj := objSpread defaults0 [("geminiApiKey", JSValue.str "abc123")]

/-- Environment exhibiting the behaviour of string and boolean coercion
on inputs the specification describes differently: a host value with
surrounding whitespace and a boolean value that is neither empty nor a
spelling of `true`. -/
def envBad : EnvMap := fun k =>
  if k == "MINECRAFT_HOST" then some " x "
  else if k == "AUTO_RESPONSE" then some "yes"
  else none

/-- Environment exercising each coercion mode of the defaults provider:
an integer, a decimal number, an upper-case boolean, an unparseable
number and an empty string. -/
def envC : EnvMap := fun k =>
  if k == "MINECRAFT_PORT" then some "25565"
  else if k == "AI_TEMPERATURE" then some "1.5"
  else if k == "AUTO_RESPONSE" then some "TRUE"
  else if k == "MAX_TOKENS" then some "notanumber"
  else if k == "MINECRAFT_HOST" then some ""
  else none

/-- Classifier: the value is a JS number (spec: declared type number or
integer). -/
def isNumV (v : JSValue) : Prop := ∃ q, v = JSValue.num q

/-- Classifier: the value is a JS boolean. -/
def isBoolV (v : JSValue) : Prop := ∃ b, v = JSValue.bool b

/-- Classifier: the value is a JS string. -/
def isStrV (v : JSValue) : Prop := ∃ s, v = JSValue.str s

/-- Classifier: a string, or `undefined` for the defaultless keys. -/
def isStrOrUndefV (v : JSValue) : Prop := isStrV v ∨ v = JSValue.undefined

/-- Classifier: the value is a JS array of strings. -/
def isStrListV (v : JSValue) : Prop := ∃ xs, v = JSValue.strList xs

/-- Classifier: the value is the nested boolean-valued object. -/
def isBoolMapV (v : JSValue) : Prop := ∃ fs, v = JSValue.boolMap fs

/-
Helper lemmas about the object model.
-/

theorem objLookup_append (a b : Obj) (k : String) :
    objLookup (a ++ b) k = (objLookup a k).or (objLookup b k) := by
  induction a with
  | nil => simp [objLookup]
  | cons p rest ih =>
      obtain ⟨k₁, v₁⟩ := p
      by_cases h : k₁ == k
      · simp [objLookup, h]
      · simp [objLookup, h, ih]

theorem objLookup_filter_not_hasKey (a b : Obj) (k : String)
    (h : objHasKey b k = false) :
    objLookup (a.filter (fun p => !(objHasKey b p.1))) k = objLookup a k := by
  induction a with
  | nil => rfl
  | cons p rest ih =>
      obtain ⟨k₁, v₁⟩ := p
      by_cases hk : k₁ == k
      · have hk' : k₁ = k := eq_of_beq hk
        subst hk'
        simp [List.filter_cons, h, objLookup]
      · by_cases hp : objHasKey b k₁
        · simp [List.filter_cons, hp, objLookup, hk, ih]
        · simp [List.filter_cons, hp, objLookup, hk, ih]

/-- Lookup through a spread: the right (later) object wins per key. -/
theorem objLookup_spread (a b : Obj) (k : String) :
    objLookup (objSpread a b) k = (objLookup b k).or (objLookup a k) := by
  unfold objSpread
  rw [objLookup_append]
  cases h : objLookup b k with
  | some v => simp [Option.or]
  | none =>
      have hh : objHasKey b k = false := by simp [objHasKey, h]
      rw [objLookup_filter_not_hasKey a b k hh]

theorem objLookup_delete_self (o : Obj) (k : String) :
    objLookup (objDelete o k) k = none := by
  induction o with
  | nil => rfl
  | cons p rest ih =>
      obtain ⟨k₁, v₁⟩ := p
      by_cases hk : k₁ == k
      · simp [objDelete, hk, ih]
      · simp [objDelete, hk, objLookup, ih]

theorem objLookup_delete_ne (o : Obj) (k k' : String) (h : k' ≠ k) :
    objLookup (objDelete o k) k' = objLookup o k' := by
  induction o with
  | nil => rfl
  | cons p rest ih =>
      obtain ⟨k₁, v₁⟩ := p
      by_cases hk : k₁ == k
      · have hk' : k₁ = k := eq_of_beq hk
        subst hk'
        have hne : (k₁ == k') = false := by
          simp
          exact fun hkk => h hkk.symm
        simp [objDelete, objLookup, hne, ih]
      · by_cases hk2 : k₁ == k'
        · simp [objDelete, hk, objLookup, hk2]
        · simp [objDelete, hk, objLookup, hk2, ih]

/-
Shape lemmas for the typed environment coercions.
-/

theorem getEnvTyped_int_isNum (env : EnvMap) (k : String) (d : ℚ) :
    isNumV (getEnvTyped env k (JSValue.num d) "int") := by
  unfold getEnvTyped
  cases env k with
  | none => exact ⟨d, rfl⟩
  | some v =>
      dsimp only
      by_cases hv : v == ""
      · rw [if_pos hv]; exact ⟨d, rfl⟩
      · rw [if_neg hv]
        show isNumV (match jsParseInt v with
          | none => JSValue.num d
          | some n => JSValue.num (n : ℚ))
        cases jsParseInt v with
        | none => exact ⟨d, rfl⟩
        | some n => exact ⟨(n : ℚ), rfl⟩

theorem getEnvTyped_number_isNum (env : EnvMap) (k : String) (d : ℚ) :
    isNumV (getEnvTyped env k (JSValue.num d) "number") := by
  unfold getEnvTyped
  cases env k with
  | none => exact ⟨d, rfl⟩
  | some v =>
      dsimp only
      by_cases hv : v == ""
      · rw [if_pos hv]; exact ⟨d, rfl⟩
      · rw [if_neg hv]
        show isNumV (match jsParseFloat v with
          | none => JSValue.num d
          | some q => JSValue.num q)
        cases jsParseFloat v with
        | none => exact ⟨d, rfl⟩
        | some q => exact ⟨q, rfl⟩

theorem getEnvTyped_boolean_isBool (env : EnvMap) (k : String) (d : Bool) :
    isBoolV (getEnvTyped env k (JSValue.bool d) "boolean") := by
  unfold getEnvTyped
  cases env k with
  | none => exact ⟨d, rfl⟩
  | some v =>
      dsimp only
      by_cases hv : v == ""
      · rw [if_pos hv]; exact ⟨d, rfl⟩
      · rw [if_neg hv]
        exact ⟨jsToLower v == "true", rfl⟩

theorem getEnvTyped_string_isStr (env : EnvMap) (k : String) (d : String) :
    isStrV (getEnvTyped env k (JSValue.str d) "string") := by
  unfold getEnvTyped
  cases env k with
  | none => exact ⟨d, rfl⟩
  | some v =>
      dsimp only
      by_cases hv : v == ""
      · rw [if_pos hv]; exact ⟨d, rfl⟩
      · rw [if_neg hv]; exact ⟨v, rfl⟩

theorem getEnvTyped_string_undef_shape (env : EnvMap) (k : String) :
    isStrOrUndefV (getEnvTyped env k JSValue.undefined "string") := by
  unfold getEnvTyped
  cases env k with
  | none => exact Or.inr rfl
  | some v =>
      dsimp only
      by_cases hv : v == ""
      · rw [if_pos hv]; exact Or.inr rfl
      · rw [if_neg hv]; exact Or.inl ⟨v, rfl⟩

theorem jsOr_str_undef {a b : JSValue}
    (ha : isStrOrUndefV a) (hb : isStrOrUndefV b) :
    isStrOrUndefV (jsOr a b) := by
  unfold jsOr
  by_cases h : jsTruthy a
  · rw [if_pos h]; exact ha
  · rw [if_neg h]; exact hb

theorem envStrList_isStrList (env : EnvMap) (k : String) (d : List String) :
    isStrListV (envStrList env k d) := by
  unfold envStrList
  rcases getEnvTyped_string_undef_shape env k with ⟨s, hs⟩ | h
  · rw [hs]
    by_cases ht : jsTruthy (JSValue.str s)
    · rw [if_pos ht]; exact ⟨s.splitOn ",", rfl⟩
    · rw [if_neg ht]; exact ⟨d, rfl⟩
  · rw [h]; exact ⟨d, rfl⟩

/-- The redacted accessor contains none of the three sensitive keys. -/
theorem getPublicConfig_secret_lookups (cfg : Obj) :
    objLookup (getPublicConfig cfg) "geminiApiKey" = none
    ∧ objLookup (getPublicConfig cfg) "webhookUrl" = none
    ∧ objLookup (getPublicConfig cfg) "adminUsers" = none := by
  unfold getPublicConfig
  refine ⟨?_, ?_, ?_⟩
  · rw [objLookup_delete_ne _ _ _ (by decide), objLookup_delete_ne _ _ _ (by decide),
      objLookup_delete_self]
  · rw [objLookup_delete_ne _ _ _ (by decide), objLookup_delete_self]
  · rw [objLookup_delete_self]

/-
Claims.
-/

/-- Claim C1: merge precedence at initialization — for every key, the
value of the snapshot built by `initializeConfig` is the explicit
override when present, else the environment override, else the file
value, else the computed default (later sources win per key). -/
theorem initializeConfig_merge_precedence
    (defaultConfig fileConfig envOverrides initialOptions : Obj) (k : String) :
    objLookup (initializeConfig defaultConfig fileConfig envOverrides initialOptions) k =
      ((objLookup initialOptions k).or ((objLookup envOverrides k).or
        ((objLookup fileConfig k).or (objLookup defaultConfig k)))) := by
  unfold initializeConfig
  rw [objLookup_spread, objLookup_spread, objLookup_spread]

/-- Claim C2: rollback on failed validation — whenever `updateConfig`
(and hence `set`) throws, the active snapshot is unchanged; concretely,
`set("port", 70000)` throws the aggregated error containing
"port must be at most 65535" and `get("port")` still yields the pre-call
value 19132. -/
theorem updateConfig_rollback_on_invalid :
    (∀ c u e, (updateConfigRun c u).outcome = Except.error e →
        (updateConfigRun c u).config = c)
    ∧ (updateConfigRun c0 [("port", JSValue.num 70000)]).outcome =
        Except.error "Configuration validation failed: port must be at most 65535"
    ∧ "port must be at most 65535" ∈
        validateConfig (objSpread c0 [("port", JSValue.num 70000)])
    ∧ objGetProp ((updateConfigRun c0 [("port", JSValue.num 70000)]).config) "port" =
        JSValue.num 19132 := by
  refine ⟨?_, by rfl, by decide, by decide⟩
  intro c u e h
  unfold updateConfigRun at h ⊢
  by_cases hc : (validateConfig (objSpread c u)).isEmpty
  · rw [if_pos hc] at h
    exact Except.noConfusion h
  · rw [if_neg hc]

/-- Witness for C2 at the concrete failing call. -/
theorem updateConfig_rollback_on_invalid_witness :
    (updateConfigRun c0 [("port", JSValue.num 70000)]).config = c0 :=
  updateConfig_rollback_on_invalid.1 c0 [("port", JSValue.num 70000)]
    "Configuration validation failed: port must be at most 65535" (by rfl)

/-- Claim C3 counterexample: a snapshot whose `webhookUrl` was set still
carries `webhookUrl` in the object serialized by `saveConfigToFile`
(only `geminiApiKey` is stripped before the write), contradicting the
claim that no secret key ever reaches the on-disk file. -/
theorem savedConfig_keeps_webhookUrl :
    objLookup (savedConfigSnapshot
        (objSpread c0 [("webhookUrl", JSValue.str "https://example.com/hook")]))
      "webhookUrl" = some (JSValue.str "https://example.com/hook")
    ∧ objLookup (savedConfigSnapshot
        (objSpread c0 [("adminUsers", JSValue.strList ["root"])]))
      "adminUsers" = some (JSValue.strList ["root"]) := by
  exact ⟨by decide, by decide⟩

/-- Claim C3 (amended): `getPublicConfig` never contains any of
`geminiApiKey`, `webhookUrl`, `adminUsers`, and the snapshot serialized
by `saveConfigToFile` never contains `geminiApiKey` (but it does retain
`webhookUrl` and `adminUsers` when set). -/
theorem redaction_public_and_saved (cfg : Obj) :
    objLookup (getPublicConfig cfg) "geminiApiKey" = none
    ∧ objLookup (getPublicConfig cfg) "webhookUrl" = none
    ∧ objLookup (getPublicConfig cfg) "adminUsers" = none
    ∧ objLookup (savedConfigSnapshot cfg) "geminiApiKey" = none := by
  obtain ⟨h1, h2, h3⟩ := getPublicConfig_secret_lookups cfg
  refine ⟨h1, h2, h3, ?_⟩
  unfold savedConfigSnapshot
  rw [objLookup_delete_self]

/-- Claim C9: idempotent reset — after one `reset()`, a second `reset()`
issues no watcher notifications: every key of the now-active snapshot is
(identically) equal to the corresponding freshly copied default,
including the list-valued and nested-map-valued keys, because the
shallow copy preserves reference identity. -/
theorem reset_idempotent_no_second_notifications (cfg defaultConfig : Obj) :
    (resetRun ((resetRun cfg defaultConfig).config) defaultConfig).notifications = [] := by
  show (objKeys defaultConfig).filterMap (fun key =>
      if objGetProp defaultConfig key != objGetProp defaultConfig key then
        some (key, objGetProp defaultConfig key, objGetProp defaultConfig key)
      else none) = []
  induction objKeys defaultConfig with
  | nil => rfl
  | cons k t ih => simp [List.filterMap_cons, ih]

/-- Claim C10: restoring from an artifact produced by `backup()` leaves
all three secret fields of the active snapshot unchanged, whether the
restore succeeds (the redacted artifact has no secret keys, so the merge
keeps the current values) or fails validation (full rollback). -/
theorem restore_preserves_secret_fields (current previous : Obj) :
    objLookup ((restoreRun current (backupArtifact previous)).config) "geminiApiKey" =
      objLookup current "geminiApiKey"
    ∧ objLookup ((restoreRun current (backupArtifact previous)).config) "webhookUrl" =
      objLookup current "webhookUrl"
    ∧ objLookup ((restoreRun current (backupArtifact previous)).config) "adminUsers" =
      objLookup current "adminUsers" := by
  obtain ⟨h1, h2, h3⟩ := getPublicConfig_secret_lookups previous
  unfold restoreRun updateConfigRun
  by_cases hc : (validateConfig (objSpread current (backupArtifact previous))).isEmpty
  · rw [if_pos hc]
    dsimp only
    refine ⟨?_, ?_, ?_⟩ <;> rw [objLookup_spread]
    · rw [show objLookup (backupArtifact previous) "geminiApiKey" = none from h1]
      rfl
    · rw [show objLookup (backupArtifact previous) "webhookUrl" = none from h2]
      rfl
    · rw [show objLookup (backupArtifact previous) "adminUsers" = none from h3]
      rfl
  · rw [if_neg hc]
    exact ⟨rfl, rfl, rfl⟩

/-- Claim C4 counterexample: from the valid snapshot `c0` (defaults of
an empty environment plus an explicit API key), `reset()` — which never
validates and has no failure path — installs the bare defaults, and the
resulting active snapshot violates the `geminiApiKey` required rule. -/
theorem reset_installs_invalid_snapshot :
    validateConfig c0 = []
    ∧ validateConfig ((resetRun c0 defaults0).config) = ["geminiApiKey is required"] := by
  exact ⟨by decide, by decide⟩

/-- Claim C4 (amended): after a successful `initializeConfig` and after a
successful `updateConfig` (hence `set`, and `restore`, which routes
through `updateConfig`), the active snapshot satisfies every validation
rule; `reset`, by contrast, performs no validation and can install an
invalid snapshot. -/
theorem active_snapshot_validates_after_success :
    (∀ d f e o, (initializeConfigRun d f e o).2 = Except.ok () →
        validateConfig (initializeConfigRun d f e o).1 = [])
    ∧ (∀ c u n, (updateConfigRun c u).outcome = Except.ok n →
        validateConfig (updateConfigRun c u).config = []) := by
  constructor
  · intro d f e o h
    unfold initializeConfigRun at h ⊢
    dsimp only at h ⊢
    by_cases hc : (validateConfig (initializeConfig d f e o)).isEmpty
    · exact List.isEmpty_iff.mp hc
    · rw [if_neg hc] at h
      exact Except.noConfusion h
  · intro c u n h
    unfold updateConfigRun at h ⊢
    by_cases hc : (validateConfig (objSpread c u)).isEmpty
    · rw [if_pos hc]
      exact List.isEmpty_iff.mp hc
    · rw [if_neg hc] at h
      dsimp only at h
      exact Except.noConfusion h

/-- Witness for the amended C4 at a concrete successful update. -/
theorem active_snapshot_validates_after_success_witness :
    validateConfig ((updateConfigRun c0 [("port", JSValue.num 25565)]).config) = [] :=
  active_snapshot_validates_after_success.2 c0 [("port", JSValue.num 25565)]
    [("port", JSValue.num 25565, JSValue.num 19132)] (by rfl)

/-- Claim C5: `validateConfig` collects every violation rather than
failing fast — a candidate violating three distinct rules (out-of-range
`port`, over-long `username`, missing required `geminiApiKey`) yields
exactly the three messages, in rule order; and for a key whose required
check fails (empty `geminiApiKey`), the remaining checks for that key
are skipped (no minimum-length message is emitted). -/
theorem validateConfig_collects_all_violations :
    validateConfig (objSpread (getDefaultConfig env0)
        [("port", JSValue.num 70000), ("username", JSValue.str "ThisUsernameIsTooLong")])
      = ["port must be at most 65535", "username must be at most 16 characters",
          "geminiApiKey is required"]
    ∧ validateConfig (objSpread c0 [("geminiApiKey", JSValue.str "")])
      = ["geminiApiKey is required"] := by
  exact ⟨by decide, by decide⟩

/-- Claim C6 counterexample: updating `port` to its current value 19132
still invokes the watcher registered on `port` (with `newValue` equal to
`oldValue`), because `updateConfig` notifies for every key of the
updates object without comparing old and new values — contradicting the
claim that watchers fire exactly when the value differs. -/
theorem updateConfig_notifies_unchanged_key :
    objGetProp c0 "port" = JSValue.num 19132
    ∧ (setWithWatchers c0 [("port", [⟨1, false⟩]), ("host", [⟨2, false⟩])]
        [("port", JSValue.num 19132)]).invocations
      = [⟨1, JSValue.num 19132, JSValue.num 19132, "port", false⟩] := by
  exact ⟨by decide, by decide⟩

/-- Claim C6 (amended): on every successful `updateConfig` (and `set`),
the notifications are exactly one per key of the updates object, in key
order, regardless of whether the value changed, each carrying
`(key, updates[key], oldConfig[key])`; keys absent from the updates
object produce no notification. -/
theorem updateConfig_notifies_every_update_key (c u : Obj)
    (notifs : List (String × JSValue × JSValue))
    (h : (updateConfigRun c u).outcome = Except.ok notifs) :
    notifs = (objKeys u).map (fun k => (k, objGetProp u k, objGetProp c k)) := by
  unfold updateConfigRun at h
  by_cases hc : (validateConfig (objSpread c u)).isEmpty
  · rw [if_pos hc] at h
    dsimp only at h
    exact (Except.ok.inj h).symm
  · rw [if_neg hc] at h
    dsimp only at h
    exact Except.noConfusion h

/-- Witness for the amended C6 at a concrete successful update. -/
theorem updateConfig_notifies_every_update_key_witness :
    [("port", JSValue.num 25565, JSValue.num 19132)]
      = (objKeys [("port", JSValue.num 25565)]).map
        (fun k => (k, objGetProp [("port", JSValue.num 25565)] k, objGetProp c0 k)) :=
  updateConfig_notifies_every_update_key c0 [("port", JSValue.num 25565)]
    [("port", JSValue.num 25565, JSValue.num 19132)] (by rfl)

/-- Claim C7: watcher isolation — with two watchers on `logLevel` whose
first throws, a `set("logLevel", "debug")` still succeeds with the new
snapshot in place, the first callback's error is caught (recorded, not
propagated), and the second callback is invoked exactly once with
`("debug", "info", "logLevel")`. -/
theorem watcher_isolation :
    (setWithWatchers c0 [("logLevel", [⟨1, true⟩, ⟨2, false⟩])]
        [("logLevel", JSValue.str "debug")]).succeeded = true
    ∧ objGetProp (setWithWatchers c0 [("logLevel", [⟨1, true⟩, ⟨2, false⟩])]
        [("logLevel", JSValue.str "debug")]).config "logLevel" = JSValue.str "debug"
    ∧ (setWithWatchers c0 [("logLevel", [⟨1, true⟩, ⟨2, false⟩])]
        [("logLevel", JSValue.str "debug")]).invocations
      = [⟨1, JSValue.str "debug", JSValue.str "info", "logLevel", true⟩,
          ⟨2, JSValue.str "debug", JSValue.str "info", "logLevel", false⟩]
    ∧ ((setWithWatchers c0 [("logLevel", [⟨1, true⟩, ⟨2, false⟩])]
        [("logLevel", JSValue.str "debug")]).invocations.filter (fun i => i.id == 2)).length
      = 1 := by
  exact ⟨by decide, by decide, by decide, by decide⟩

/-- Claim C8 counterexample: with `MINECRAFT_HOST = " x "` the computed
`host` keeps its surrounding whitespace (the local `getEnv` does not
trim, contradicting "verbatim string with whitespace trimmed"), and with
`AUTO_RESPONSE = "yes"` — a value that fails to parse as a boolean — the
result is `false`, not the hard-coded default `true` (no fallback for
booleans). -/
theorem getDefaultConfig_untrimmed_and_bool_no_fallback :
    objGetProp (getDefaultConfig envBad) "host" = JSValue.str " x "
    ∧ objGetProp (getDefaultConfig envBad) "host" ≠ JSValue.str "x"
    ∧ objGetProp (getDefaultConfig envBad) "autoResponse" = JSValue.bool false
    ∧ objGetProp (getDefaultConfig envBad) "autoResponse" ≠ JSValue.bool true := by
  exact ⟨by decide, by decide, by decide, by decide⟩

/-- Claim C8 (amended): `getDefaultConfig` is a total pure function of
the environment snapshot; for every environment, every declared key is
coerced to its declared type (number and integer via prefix parsing,
boolean via a case-insensitive comparison with "true" where any other
non-empty input yields `false` rather than the default, and verbatim
untrimmed strings), falling back to the hard-coded default when the
input is absent, empty, or (for the numeric types) fails to parse — as
demonstrated on the concrete environment `envC`. -/
theorem getDefaultConfig_total_and_typed :
    (∀ env : EnvMap,
      isStrV (objGetProp (getDefaultConfig env) "host")
      ∧ isNumV (objGetProp (getDefaultConfig env) "port")
      ∧ isStrV (objGetProp (getDefaultConfig env) "username")
      ∧ isStrV (objGetProp (getDefaultConfig env) "version")
      ∧ isBoolV (objGetProp (getDefaultConfig env) "skipPing")
      ∧ isBoolV (objGetProp (getDefaultConfig env) "offlineMode")
      ∧ isStrOrUndefV (objGetProp (getDefaultConfig env) "geminiApiKey")
      ∧ isStrV (objGetProp (getDefaultConfig env) "geminiModel")
      ∧ isNumV (objGetProp (getDefaultConfig env) "maxTokens")
      ∧ isNumV (objGetProp (getDefaultConfig env) "aiTemperature")
      ∧ isNumV (objGetProp (getDefaultConfig env) "aiTopP")
      ∧ isNumV (objGetProp (getDefaultConfig env) "aiTopK")
      ∧ isNumV (objGetProp (getDefaultConfig env) "chatCooldown")
      ∧ isBoolV (objGetProp (getDefaultConfig env) "autoResponse")
      ∧ isBoolV (objGetProp (getDefaultConfig env) "learningEnabled")
      ∧ isBoolV (objGetProp (getDefaultConfig env) "aggressiveMode")
      ∧ isBoolV (objGetProp (getDefaultConfig env) "helpfulMode")
      ∧ isNumV (objGetProp (getDefaultConfig env) "missionTimeout")
      ∧ isBoolV (objGetProp (getDefaultConfig env) "autoStartMission")
      ∧ isBoolV (objGetProp (getDefaultConfig env) "teamMode")
      ∧ isNumV (objGetProp (getDefaultConfig env) "maxTeamSize")
      ∧ isNumV (objGetProp (getDefaultConfig env) "combatDistance")
      ∧ isNumV (objGetProp (getDefaultConfig env) "fleeThreshold")
      ∧ isStrV (objGetProp (getDefaultConfig env) "combatStrategy")
      ∧ isNumV (objGetProp (getDefaultConfig env) "pathfindingTimeout")
      ∧ isNumV (objGetProp (getDefaultConfig env) "movementSpeed")
      ∧ isNumV (objGetProp (getDefaultConfig env) "jumpHeight")
      ∧ isBoolV (objGetProp (getDefaultConfig env) "autoManageInventory")
      ∧ isBoolV (objGetProp (getDefaultConfig env) "keepEssentialItems")
      ∧ isBoolV (objGetProp (getDefaultConfig env) "craftingEnabled")
      ∧ isBoolV (objGetProp (getDefaultConfig env) "debugMode")
      ∧ isStrV (objGetProp (getDefaultConfig env) "logLevel")
      ∧ isBoolV (objGetProp (getDefaultConfig env) "logPackets")
      ∧ isBoolV (objGetProp (getDefaultConfig env) "simulationMode")
      ∧ isNumV (objGetProp (getDefaultConfig env) "tickRate")
      ∧ isNumV (objGetProp (getDefaultConfig env) "maxMemoryUsage")
      ∧ isNumV (objGetProp (getDefaultConfig env) "gcInterval")
      ∧ isStrV (objGetProp (getDefaultConfig env) "learningDataPath")
      ∧ isNumV (objGetProp (getDefaultConfig env) "maxLearningEntries")
      ∧ isNumV (objGetProp (getDefaultConfig env) "learningDecayRate")
      ∧ isStrListV (objGetProp (getDefaultConfig env) "allowedCommands")
      ∧ isStrListV (objGetProp (getDefaultConfig env) "adminUsers")
      ∧ isBoolV (objGetProp (getDefaultConfig env) "rateLimitEnabled")
      ∧ isNumV (objGetProp (getDefaultConfig env) "maxRequestsPerMinute")
      ∧ isBoolV (objGetProp (getDefaultConfig env) "multiServerMode")
      ∧ isBoolV (objGetProp (getDefaultConfig env) "backupEnabled")
      ∧ isBoolV (objGetProp (getDefaultConfig env) "metricsEnabled")
      ∧ isStrOrUndefV (objGetProp (getDefaultConfig env) "webhookUrl")
      ∧ isBoolMapV (objGetProp (getDefaultConfig env) "experimentalFeatures"))
    ∧ (objGetProp (getDefaultConfig envC) "port" = JSValue.num 25565
      ∧ objGetProp (getDefaultConfig envC) "aiTemperature" = JSValue.num (mkRat 3 2)
      ∧ objGetProp (getDefaultConfig envC) "autoResponse" = JSValue.bool true
      ∧ objGetProp (getDefaultConfig envC) "maxTokens" = JSValue.num 1000
      ∧ objGetProp (getDefaultConfig envC) "host" = JSValue.str "localhost") := by
  constructor
  · intro env
    exact ⟨getEnvTyped_string_isStr env "MINECRAFT_HOST" "localhost",
      getEnvTyped_int_isNum env "MINECRAFT_PORT" 19132,
      getEnvTyped_string_isStr env "BOT_USERNAME" "DragonSlayerBot",
      getEnvTyped_string_isStr env "MINECRAFT_VERSION" "1.20.0",
      ⟨true, rfl⟩,
      ⟨false, rfl⟩,
      jsOr_str_undef (jsOr_str_undef (getEnvTyped_string_undef_shape env "GEMINI_API_KEY")
        (getEnvTyped_string_undef_shape env "GEMINI_KEY"))
        (getEnvTyped_string_undef_shape env "API_KEY"),
      getEnvTyped_string_isStr env "GEMINI_MODEL" "gemini-1.5-flash",
      getEnvTyped_int_isNum env "MAX_TOKENS" 1000,
      getEnvTyped_number_isNum env "AI_TEMPERATURE" (mkRat 7 10),
      getEnvTyped_number_isNum env "AI_TOP_P" (mkRat 9 10),
      getEnvTyped_int_isNum env "AI_TOP_K" 40,
      getEnvTyped_int_isNum env "CHAT_COOLDOWN" 2000,
      getEnvTyped_boolean_isBool env "AUTO_RESPONSE" true,
      getEnvTyped_boolean_isBool env "LEARNING_ENABLED" true,
      getEnvTyped_boolean_isBool env "AGGRESSIVE_MODE" false,
      getEnvTyped_boolean_isBool env "HELPFUL_MODE" true,
      getEnvTyped_int_isNum env "MISSION_TIMEOUT" 1800000,
      getEnvTyped_boolean_isBool env "AUTO_START_MISSION" false,
      getEnvTyped_boolean_isBool env "TEAM_MODE" true,
      getEnvTyped_int_isNum env "MAX_TEAM_SIZE" 4,
      getEnvTyped_number_isNum env "COMBAT_DISTANCE" 3,
      getEnvTyped_number_isNum env "FLEE_THRESHOLD" (mkRat 3 10),
      getEnvTyped_string_isStr env "COMBAT_STRATEGY" "balanced",
      getEnvTyped_int_isNum env "PATHFINDING_TIMEOUT" 10000,
      getEnvTyped_number_isNum env "MOVEMENT_SPEED" (mkRat 4317 1000),
      getEnvTyped_number_isNum env "JUMP_HEIGHT" (mkRat 125 100),
      getEnvTyped_boolean_isBool env "AUTO_MANAGE_INVENTORY" true,
      getEnvTyped_boolean_isBool env "KEEP_ESSENTIAL_ITEMS" true,
      getEnvTyped_boolean_isBool env "CRAFTING_ENABLED" true,
      getEnvTyped_boolean_isBool env "DEBUG_MODE" false,
      getEnvTyped_string_isStr env "LOG_LEVEL" "info",
      getEnvTyped_boolean_isBool env "LOG_PACKETS" false,
      getEnvTyped_boolean_isBool env "SIMULATION_MODE" false,
      getEnvTyped_int_isNum env "TICK_RATE" 20,
      getEnvTyped_int_isNum env "MAX_MEMORY_MB" 512,
      getEnvTyped_int_isNum env "GC_INTERVAL" 60000,
      getEnvTyped_string_isStr env "LEARNING_DATA_PATH" "./data/learning",
      getEnvTyped_int_isNum env "MAX_LEARNING_ENTRIES" 10000,
      getEnvTyped_number_isNum env "LEARNING_DECAY_RATE" (mkRat 1 10),
      envStrList_isStrList env "ALLOWED_COMMANDS" ["help", "status", "mission"],
      envStrList_isStrList env "ADMIN_USERS" [],
      getEnvTyped_boolean_isBool env "RATE_LIMIT_ENABLED" true,
      getEnvTyped_int_isNum env "MAX_REQUESTS_PER_MINUTE" 30,
      getEnvTyped_boolean_isBool env "MULTI_SERVER_MODE" false,
      getEnvTyped_boolean_isBool env "BACKUP_ENABLED" true,
      getEnvTyped_boolean_isBool env "METRICS_ENABLED" false,
      getEnvTyped_string_undef_shape env "WEBHOOK_URL",
      ⟨_, rfl⟩⟩
  · exact ⟨by decide, by decide, by decide, by decide, by decide⟩

end ConfigManager
